import Mathlib

/-!
Shallow embedding of the workflow/status-migration engine of the
orbit-hub backend (`src/backend/app/api/v1/endpoints/project_types.py`
and `src/backend/app/api/v1/endpoints/task_types.py`).

The relational store is modelled as explicit lists of rows; each endpoint
becomes a function from the store (plus request data) to a result paired
with the store after the request.  `HTTPException` raises become `.error`
results carrying the structured content of the exception's detail message;
since every raise in these endpoints happens before any mutation
statement, the store component returned alongside an error is the input
store.

Python `dict`s built from mapping lists keep key-insertion order with
last-write-wins values; they are modelled as ordered association lists
with the same overwrite semantics.  Python iterates the set
`removed_statuses = set(old) - set(new)` in an unspecified order; the
embedding fixes the order of first appearance in the old workflow.  The
theorems below do not depend on which qualifying status is reported when
several would qualify.
-/

namespace OrbitHub

/-- Request body item `StatusMigration`: migrate entities from
`old_status` to `new_status` (project_types.py lines 23-26). -/
structure StatusMigration where
  old_status : String
  new_status : String
deriving DecidableEq, Repr

/-- Row `ProjectType`: id, name, slug, description, ordered `workflow`
of status names, color (models/project.py).  Fields never read or
written by the migration engine are carried opaquely. -/
structure ProjectType where
  id : Nat
  name : String
  slug : String
  description : Option String
  workflow : List String
  color : Option String
deriving DecidableEq, Repr

/-- Row `Project` (models/project.py): the migration engine touches only
`project_type_id` and `status`; the remaining columns are carried to
state frame properties. -/
structure Project where
  id : Nat
  theme_id : Option Nat
  project_type_id : Nat
  title : String
  description : Option String
  status : String
  custom_data : List (String × String)
deriving DecidableEq, Repr

/-- Row `TaskType` (models/task.py): task types are team-scoped. -/
structure TaskType where
  id : Nat
  team_id : Nat
  name : String
  slug : String
  description : Option String
  workflow : List String
  color : Option String
deriving DecidableEq, Repr

/-- Row `Task` (models/task.py).  `estimation` is a float in the source;
it is never read or written by the migration engine, so its value is
carried opaquely as an integer code. -/
structure Task where
  id : Nat
  display_id : String
  project_id : Option Nat
  team_id : Nat
  task_type_id : Nat
  release_id : Option Nat
  title : String
  description : Option String
  status : String
  estimation : Option Int
  custom_data : List (String × String)
deriving DecidableEq, Repr

/-- The project-side slice of the database. -/
structure ProjectStore where
  project_types : List ProjectType
  projects : List Project
deriving DecidableEq, Repr

/-- The task-side slice of the database. -/
structure TaskStore where
  task_types : List TaskType
  tasks : List Task
deriving DecidableEq, Repr

/-- Structured content of the `HTTPException`s raised by the migration
endpoints (the detail strings of project_types.py / task_types.py). -/
inductive ApiError where
  | typeNotFound : ApiError
  | targetTypeNotFound : ApiError
  | sameType : ApiError
  | targetStatusNotInWorkflow (target : String) : ApiError
  | unmappedStatusInUse (removed : String) (count : Nat) : ApiError
  | cannotDeleteWithEntities (count : Nat) : ApiError
deriving DecidableEq, Repr

/-- Insert into a Python-dict-like ordered association list:
an existing key keeps its position and gets the new value, a new key is
appended. -/
def dict_insert (d : List (String × String)) (k v : String) : List (String × String) :=
  if d.any (fun kv => kv.1 == k) then
    d.map (fun kv => if kv.1 == k then (k, v) else kv)
  else
    d ++ [(k, v)]

/-- Mirror of the dict comprehension over the mapping list keyed on
`old_status` with `new_status` values, later duplicate keys overwriting
earlier ones. -/
def build_status_map (ms : List StatusMigration) : List (String × String) :=
  ms.foldl (fun d m => dict_insert d m.old_status m.new_status) []

/-- Lookup `status_map.get(k)`. -/
def dict_get (d : List (String × String)) (k : String) : Option String :=
  (d.find? (fun kv => kv.1 == k)).map (fun kv => kv.2)

/-- Query `select(ProjectType).where(ProjectType.id == tid)` resolved to
at most one row (`scalar_one_or_none`). -/
def find_project_type (ts : List ProjectType) (tid : Nat) : Option ProjectType :=
  ts.find? (fun t => t.id == tid)

/-- Count query over `Project` rows with the given `project_type_id` and
`status`. -/
def count_projects_by_type_and_status (ps : List Project) (tid : Nat) (s : String) : Nat :=
  ps.countP (fun p => decide (p.project_type_id = tid ∧ p.status = s))

/-- Count query over `Project` rows with the given `project_type_id`. -/
def count_projects_by_type (ps : List Project) (tid : Nat) : Nat :=
  ps.countP (fun p => decide (p.project_type_id = tid))

/-- The `for removed in removed_statuses` loop of
`update_project_type_workflow` (project_types.py lines 352-366): the
first removed status that has no mapping entry and a positive project
count, together with that count; `none` when the loop raises nothing. -/
def find_unmapped_in_use (ps : List Project) (tid : Nat)
    (smap : List (String × String)) : List String → Option (String × Nat)
  | [] => none
  | s :: rest =>
    if (dict_get smap s).isSome then
      find_unmapped_in_use ps tid smap rest
    else if count_projects_by_type_and_status ps tid s > 0 then
      some (s, count_projects_by_type_and_status ps tid s)
    else
      find_unmapped_in_use ps tid smap rest

/-- One bulk statement `UPDATE projects SET status = new_s WHERE
project_type_id = tid AND status = old_s`. -/
def bulk_update_status (ps : List Project) (tid : Nat) (old_s new_s : String) : List Project :=
  ps.map (fun p =>
    if p.project_type_id = tid ∧ p.status = old_s then { p with status := new_s } else p)

/-- Endpoint PATCH project-types workflow (project_types.py lines
321-389): find the type, report the first unmapped removed status that
still has projects, check every mapping target against the new workflow,
then apply every declared mapping as a bulk update (in dict order) and
store the new workflow. -/
def update_project_type_workflow (store : ProjectStore) (project_type_id : Nat)
    (workflow : List String) (status_mappings : List StatusMigration) :
    Except ApiError Unit × ProjectStore :=
  match find_project_type store.project_types project_type_id with
  | none => (.error .typeNotFound, store)
  | some project_type =>
    match find_unmapped_in_use store.projects project_type_id
        (build_status_map status_mappings)
        (project_type.workflow.filter (fun s => decide (s ∉ workflow))) with
    | some sc => (.error (.unmappedStatusInUse sc.1 sc.2), store)
    | none =>
      match ((build_status_map status_mappings).map (fun kv => kv.2)).find?
          (fun ns => decide (ns ∉ workflow)) with
      | some ns => (.error (.targetStatusNotInWorkflow ns), store)
      | none =>
        (.ok (),
          { project_types := store.project_types.map
              (fun t => if t.id = project_type_id then { t with workflow := workflow } else t),
            projects := (build_status_map status_mappings).foldl
              (fun ps kv => bulk_update_status ps project_type_id kv.1 kv.2) store.projects })

/-- Endpoint POST project-types migrate (project_types.py lines 213-280):
resolve source and target types, reject identical types, check every
mapping target against the target workflow, then reassign every project
of the source type, mapping its status through `status_map` with the
target workflow's first status (or "Backlog" for an empty workflow) as
default.  The `.ok` payload is the reported migrated count. -/
def migrate_projects_to_type (store : ProjectStore) (project_type_id : Nat)
    (target_project_type_id : Nat) (status_mappings : List StatusMigration) :
    Except ApiError Nat × ProjectStore :=
  match find_project_type store.project_types project_type_id with
  | none => (.error .typeNotFound, store)
  | some _source_type =>
    match find_project_type store.project_types target_project_type_id with
    | none => (.error .targetTypeNotFound, store)
    | some target_type =>
      if target_type.id = project_type_id then (.error .sameType, store)
      else
        match ((build_status_map status_mappings).map (fun kv => kv.2)).find?
            (fun ns => decide (ns ∉ target_type.workflow)) with
        | some ns => (.error (.targetStatusNotInWorkflow ns), store)
        | none =>
          (.ok (count_projects_by_type store.projects project_type_id),
            { store with projects := store.projects.map (fun p =>
                if p.project_type_id = project_type_id then
                  { p with
                    project_type_id := target_type.id,
                    status := (dict_get (build_status_map status_mappings) p.status).getD
                      (target_type.workflow.headD "Backlog") }
                else p) })

/-- Endpoint DELETE project-types (project_types.py lines 283-318): allow
only when no project references the type; otherwise deny reporting the
count. -/
def delete_project_type (store : ProjectStore) (project_type_id : Nat) :
    Except ApiError Unit × ProjectStore :=
  match find_project_type store.project_types project_type_id with
  | none => (.error .typeNotFound, store)
  | some _project_type =>
    if count_projects_by_type store.projects project_type_id > 0 then
      (.error (.cannotDeleteWithEntities (count_projects_by_type store.projects project_type_id)),
        store)
    else
      (.ok (),
        { store with project_types :=
            store.project_types.eraseP (fun t => t.id == project_type_id) })

/-- Python-dict insertion for the stats breakdown (`Nat` values). -/
def dict_insert_nat (d : List (String × Nat)) (k : String) (v : Nat) : List (String × Nat) :=
  if d.any (fun kv => kv.1 == k) then
    d.map (fun kv => if kv.1 == k then (k, v) else kv)
  else
    d ++ [(k, v)]

/-- The `projects_by_status` dict of `get_project_type_stats`
(project_types.py lines 189-201): one count per workflow status, entered
only when positive. -/
def projects_by_status (ps : List Project) (tid : Nat) (wf : List String) :
    List (String × Nat) :=
  wf.foldl (fun d s =>
    if count_projects_by_type_and_status ps tid s > 0 then
      dict_insert_nat d s (count_projects_by_type_and_status ps tid s)
    else d) []

/-- Total `total_projects = sum(projects_by_status.values())`. -/
def stats_total (d : List (String × Nat)) : Nat :=
  (d.map (fun kv => kv.2)).sum

/-- Endpoint GET project-types stats (project_types.py lines 167-210):
the per-status breakdown and the total, both computed from the type's
current workflow. -/
def get_project_type_stats (store : ProjectStore) (project_type_id : Nat) :
    Except ApiError (List (String × Nat) × Nat) :=
  match find_project_type store.project_types project_type_id with
  | none => .error .typeNotFound
  | some project_type =>
    .ok (projects_by_status store.projects project_type_id project_type.workflow,
      stats_total (projects_by_status store.projects project_type_id project_type.workflow))

/-- Query `select(TaskType).where(TaskType.id == tid)`. -/
def find_task_type (ts : List TaskType) (tid : Nat) : Option TaskType :=
  ts.find? (fun t => t.id == tid)

/-- Count query over `Task` rows with the given `task_type_id`. -/
def count_tasks_by_type (ts : List Task) (tid : Nat) : Nat :=
  ts.countP (fun t => decide (t.task_type_id = tid))

/-- Endpoint POST task-types migrate (task_types.py lines 235-304): like
the project variant, but each migrated task additionally gets the target
type's `team_id` (`task.team_id = target_type.team_id`). -/
def migrate_tasks_to_type (store : TaskStore) (task_type_id : Nat)
    (target_task_type_id : Nat) (status_mappings : List StatusMigration) :
    Except ApiError Nat × TaskStore :=
  match find_task_type store.task_types task_type_id with
  | none => (.error .typeNotFound, store)
  | some _source_type =>
    match find_task_type store.task_types target_task_type_id with
    | none => (.error .targetTypeNotFound, store)
    | some target_type =>
      if target_type.id = task_type_id then (.error .sameType, store)
      else
        match ((build_status_map status_mappings).map (fun kv => kv.2)).find?
            (fun ns => decide (ns ∉ target_type.workflow)) with
        | some ns => (.error (.targetStatusNotInWorkflow ns), store)
        | none =>
          (.ok (count_tasks_by_type store.tasks task_type_id),
            { store with tasks := store.tasks.map (fun t =>
                if t.task_type_id = task_type_id then
                  { t with
                    task_type_id := target_type.id,
                    team_id := target_type.team_id,
                    status := (dict_get (build_status_map status_mappings) t.status).getD
                      (target_type.workflow.headD "Backlog") }
                else t) })

/-! ### Helper lemmas -/

/-- The removed-status loop raises nothing when every unmapped status in
the list has a zero count. -/
theorem find_unmapped_in_use_eq_none {ps : List Project} {tid : Nat}
    {smap : List (String × String)} {L : List String}
    (h : ∀ s ∈ L, dict_get smap s = none →
      count_projects_by_type_and_status ps tid s = 0) :
    find_unmapped_in_use ps tid smap L = none := by
  induction L with
  | nil => rfl
  | cons a rest ih =>
    have hrest : find_unmapped_in_use ps tid smap rest = none :=
      ih (fun s hs => h s (List.mem_cons_of_mem a hs))
    by_cases ha : (dict_get smap a).isSome
    · simp [find_unmapped_in_use, ha, hrest]
    · have hz : count_projects_by_type_and_status ps tid a = 0 :=
        h a (List.mem_cons_self a rest) (Option.not_isSome_iff_eq_none.mp ha)
      simp [find_unmapped_in_use, ha, hz, hrest]

/-- If some status in the list is unmapped and has a positive count, the
removed-status loop raises on a status with exactly those properties,
reporting that status's exact count. -/
theorem find_unmapped_in_use_eq_some (ps : List Project) (tid : Nat)
    (smap : List (String × String)) {L : List String} {s : String}
    (hs : s ∈ L) (hm : dict_get smap s = none)
    (hc : 0 < count_projects_by_type_and_status ps tid s) :
    ∃ t c, find_unmapped_in_use ps tid smap L = some (t, c)
      ∧ t ∈ L ∧ dict_get smap t = none
      ∧ c = count_projects_by_type_and_status ps tid t ∧ 0 < c := by
  induction L with
  | nil => cases hs
  | cons a rest ih =>
    by_cases ha : (dict_get smap a).isSome
    · have hsr : s ∈ rest := by
        rcases List.mem_cons.mp hs with rfl | hsr
        · rw [hm] at ha; cases ha
        · exact hsr
      obtain ⟨t, c, h1, h2, h3, h4, h5⟩ := ih hsr
      exact ⟨t, c, by simp [find_unmapped_in_use, ha, h1],
        List.mem_cons_of_mem a h2, h3, h4, h5⟩
    · by_cases hca : 0 < count_projects_by_type_and_status ps tid a
      · exact ⟨a, count_projects_by_type_and_status ps tid a,
          by simp [find_unmapped_in_use, ha, hca],
          List.mem_cons_self a rest, Option.not_isSome_iff_eq_none.mp ha, rfl, hca⟩
      · have hsr : s ∈ rest := by
          rcases List.mem_cons.mp hs with rfl | hsr
          · exact absurd hc hca
          · exact hsr
        obtain ⟨t, c, h1, h2, h3, h4, h5⟩ := ih hsr
        exact ⟨t, c, by simp [find_unmapped_in_use, ha, hca, h1],
          List.mem_cons_of_mem a h2, h3, h4, h5⟩

/-- The target-status validation loop raises nothing when every mapping
target is a member of the workflow. -/
theorem map_values_find?_eq_none {smap : List (String × String)} {wf : List String}
    (h : ∀ kv ∈ smap, kv.2 ∈ wf) :
    (smap.map (fun kv => kv.2)).find? (fun ns => decide (ns ∉ wf)) = none := by
  rw [List.find?_eq_none]
  intro x hx
  obtain ⟨kv, hkv, rfl⟩ := List.mem_map.mp hx
  simpa using h kv hkv

/-- Replacing the workflow of the type with the given id commutes with
looking that type up. -/
theorem find_project_type_map_set_workflow (ts : List ProjectType) (tid : Nat)
    (wf : List String) :
    find_project_type
        (ts.map (fun t => if t.id = tid then { t with workflow := wf } else t)) tid
      = (find_project_type ts tid).map (fun t => { t with workflow := wf }) := by
  induction ts with
  | nil => rfl
  | cons t rest ih =>
    by_cases h : t.id = tid
    · simp [find_project_type, List.find?_cons, h]
    · simp only [find_project_type, List.map_cons, List.find?_cons, if_neg h]
      have hb : (t.id == tid) = false := by simpa using h
      simp only [hb]
      exact ih

/-- Sequential application of the per-mapping bulk updates to the
status strings: the whole chain of declared mappings applied in dict
order. -/
def chain_apply (smap : List (String × String)) (st : String) : String :=
  smap.foldl (fun s kv => if kv.1 = s then kv.2 else s) st

/-- The sequence of per-mapping bulk `UPDATE` statements equals a single
per-row pass that chains every declared mapping over the row's status. -/
theorem foldl_bulk_update_eq_map (smap : List (String × String)) (tid : Nat)
    (ps : List Project) :
    smap.foldl (fun ps kv => bulk_update_status ps tid kv.1 kv.2) ps
      = ps.map (fun p => if p.project_type_id = tid
          then { p with status := chain_apply smap p.status } else p) := by
  induction smap generalizing ps with
  | nil =>
    have hid : ∀ p : Project,
        (if p.project_type_id = tid
          then { p with status := chain_apply [] p.status } else p) = p := by
      intro p
      by_cases h : p.project_type_id = tid
      · rw [if_pos h]; rfl
      · exact if_neg h
    simp only [List.foldl_nil]
    symm
    calc ps.map (fun p => if p.project_type_id = tid
            then { p with status := chain_apply [] p.status } else p)
        = ps.map id := List.map_congr_left (fun p _ => hid p)
      _ = ps := List.map_id ps
  | cons kv rest ih =>
    rw [List.foldl_cons, ih, bulk_update_status, List.map_map]
    refine List.map_congr_left (fun p _ => ?_)
    by_cases hp : p.project_type_id = tid
    · by_cases hst : p.status = kv.1
      · have h1 : kv.1 = p.status := hst.symm
        simp only [Function.comp, hp, hst, and_self, if_pos, chain_apply,
          List.foldl_cons, if_pos h1]
      · have h1 : ¬ kv.1 = p.status := fun h => hst h.symm
        simp only [Function.comp, hp, hst, and_false, if_false, if_pos hp,
          chain_apply, List.foldl_cons, if_neg h1]
    · have h2 : ¬ (p.project_type_id = tid ∧ p.status = kv.1) := fun h => hp h.1
      simp only [Function.comp, if_neg h2, if_neg hp]

/-- Counting a disjunction of disjoint predicates splits into a sum. -/
theorem countP_or_disjoint {α : Type} (p q : α → Bool) (l : List α)
    (h : ∀ x ∈ l, ¬(p x = true ∧ q x = true)) :
    l.countP (fun x => p x || q x) = l.countP p + l.countP q := by
  induction l with
  | nil => simp
  | cons a l ih =>
    simp only [List.countP_cons]
    rw [ih (fun x hx => h x (List.mem_cons_of_mem a hx))]
    by_cases hp : p a = true
    · have hq : ¬ q a = true := fun hq => h a (List.mem_cons_self a l) ⟨hp, hq⟩
      simp [hp, hq]; omega
    · by_cases hq : q a = true
      all_goals simp [hp, hq]
      all_goals omega

/-- A per-status count never exceeds the per-type count. -/
theorem count_status_le_count_type (ps : List Project) (tid : Nat) (s : String) :
    count_projects_by_type_and_status ps tid s ≤ count_projects_by_type ps tid :=
  List.countP_mono_left (fun p _ h => by
    simp only [decide_eq_true_eq] at h ⊢
    exact h.1)

/-- Shape of a successful workflow update: both validation loops passed,
every declared mapping is applied as a bulk update, and the new workflow
is stored. -/
theorem update_workflow_ok {store : ProjectStore} {tid : Nat} {wf : List String}
    {ms : List StatusMigration} {pt : ProjectType}
    (h1 : find_project_type store.project_types tid = some pt)
    (h2 : find_unmapped_in_use store.projects tid (build_status_map ms)
        (pt.workflow.filter (fun s => decide (s ∉ wf))) = none)
    (h3 : ((build_status_map ms).map (fun kv => kv.2)).find?
        (fun ns => decide (ns ∉ wf)) = none) :
    update_project_type_workflow store tid wf ms
      = (.ok (),
        { project_types := store.project_types.map
            (fun t => if t.id = tid then { t with workflow := wf } else t),
          projects := (build_status_map ms).foldl
            (fun ps kv => bulk_update_status ps tid kv.1 kv.2) store.projects }) := by
  simp only [update_project_type_workflow, h1, h2, h3]

/-- Shape of a workflow update on a missing type. -/
theorem update_workflow_err_notfound {store : ProjectStore} {tid : Nat}
    {wf : List String} {ms : List StatusMigration}
    (h1 : find_project_type store.project_types tid = none) :
    update_project_type_workflow store tid wf ms = (.error .typeNotFound, store) := by
  simp only [update_project_type_workflow, h1]

/-- Shape of a workflow update stopped by the removed-status loop. -/
theorem update_workflow_err_unmapped {store : ProjectStore} {tid : Nat}
    {wf : List String} {ms : List StatusMigration} {pt : ProjectType} {sc : String × Nat}
    (h1 : find_project_type store.project_types tid = some pt)
    (h2 : find_unmapped_in_use store.projects tid (build_status_map ms)
        (pt.workflow.filter (fun s => decide (s ∉ wf))) = some sc) :
    update_project_type_workflow store tid wf ms
      = (.error (.unmappedStatusInUse sc.1 sc.2), store) := by
  simp only [update_project_type_workflow, h1, h2]

/-- Shape of a workflow update stopped by the mapping-target loop. -/
theorem update_workflow_err_target {store : ProjectStore} {tid : Nat}
    {wf : List String} {ms : List StatusMigration} {pt : ProjectType} {ns : String}
    (h1 : find_project_type store.project_types tid = some pt)
    (h2 : find_unmapped_in_use store.projects tid (build_status_map ms)
        (pt.workflow.filter (fun s => decide (s ∉ wf))) = none)
    (h3 : ((build_status_map ms).map (fun kv => kv.2)).find?
        (fun ns => decide (ns ∉ wf)) = some ns) :
    update_project_type_workflow store tid wf ms
      = (.error (.targetStatusNotInWorkflow ns), store) := by
  simp only [update_project_type_workflow, h1, h2, h3]

/-! ### Demo data used by the witnesses (the spec's concrete scenarios) -/

/-- Scenario project type with workflow `["Backlog", "Doing", "Done"]`. -/
def demo_pt : ProjectType :=
  ⟨1, "Feature", "feature", none, ["Backlog", "Doing", "Done"], none⟩

/-- Scenario project of type 1 with the given id and status. -/
def demo_project (i : Nat) (s : String) : Project :=
  ⟨i, none, 1, "Project", none, s, []⟩

/-- Scenario store: three projects in status "Doing". -/
def demo_store : ProjectStore :=
  ⟨[demo_pt], [demo_project 1 "Doing", demo_project 2 "Doing", demo_project 3 "Doing"]⟩

/-- Scenario store: two projects in status "Doing". -/
def demo_store2 : ProjectStore :=
  ⟨[demo_pt], [demo_project 1 "Doing", demo_project 2 "Doing"]⟩

/-! ### Claims -/

/-- Claim C1, as stated, is false: its precondition constrains only the
removed statuses, but the operation also rejects any mapping entry whose
target is outside the new workflow, even when no status is removed at
all.  Concretely, with old workflow `["A"]`, new workflow `["A"]` (so no
status is removed and the claim's precondition holds vacuously; there are
no entities either) and the single mapping `("A", "Z")`, the operation
fails with `TargetStatusNotInWorkflow "Z"` instead of succeeding. -/
theorem claim_C1_counterexample :
    ((["A"] : List String).filter (fun s => decide (s ∉ (["A"] : List String))) = []
        ∧ (⟨[⟨1, "T", "t", none, ["A"], none⟩], []⟩ : ProjectStore).projects = [])
      ∧ (update_project_type_workflow ⟨[⟨1, "T", "t", none, ["A"], none⟩], []⟩ 1 ["A"]
          [⟨"A", "Z"⟩]).1 = .error (.targetStatusNotInWorkflow "Z") :=
  ⟨⟨rfl, rfl⟩, rfl⟩

/-- Claim C1 (amended): for every workflow-update request on an existing
type in which each removed status that has no statusMappings entry has
zero entities, and every statusMappings target is a member of
newWorkflow, the operation succeeds and the stored workflow afterwards
equals newWorkflow exactly (same names, same order). -/
theorem claim_C1 {store : ProjectStore} {tid : Nat} {wf : List String}
    {ms : List StatusMigration} {pt : ProjectType}
    (h1 : find_project_type store.project_types tid = some pt)
    (h2 : ∀ s ∈ pt.workflow, s ∉ wf → dict_get (build_status_map ms) s = none →
      count_projects_by_type_and_status store.projects tid s = 0)
    (h3 : ∀ kv ∈ build_status_map ms, kv.2 ∈ wf) :
    (update_project_type_workflow store tid wf ms).1 = .ok ()
      ∧ find_project_type
          (update_project_type_workflow store tid wf ms).2.project_types tid
        = some { pt with workflow := wf } := by
  have hnone : find_unmapped_in_use store.projects tid (build_status_map ms)
      (pt.workflow.filter (fun s => decide (s ∉ wf))) = none :=
    find_unmapped_in_use_eq_none (fun s hs hm => by
      have hsf := List.mem_filter.mp hs
      exact h2 s hsf.1 (by simpa using hsf.2) hm)
  have hshape := update_workflow_ok h1 hnone (map_values_find?_eq_none h3)
  rw [hshape]
  refine ⟨rfl, ?_⟩
  rw [find_project_type_map_set_workflow, h1]
  rfl

/-- Witness for C1: the spec's concrete scenario — workflow
`["Backlog","Doing","Done"]` becomes `["Backlog","InProgress","Done"]`
with three projects in "Doing" and the mapping `Doing -> InProgress`. -/
theorem claim_C1_witness :
    (update_project_type_workflow demo_store 1 ["Backlog", "InProgress", "Done"]
        [⟨"Doing", "InProgress"⟩]).1 = .ok ()
      ∧ find_project_type
          (update_project_type_workflow demo_store 1 ["Backlog", "InProgress", "Done"]
            [⟨"Doing", "InProgress"⟩]).2.project_types 1
        = some { demo_pt with workflow := ["Backlog", "InProgress", "Done"] } :=
  claim_C1 rfl (by decide) (by decide)

/-- Claim C2: when some status removed from the workflow still has
entities and no mapping entry, the update fails with
`UnmappedStatusInUse` naming such a status and carrying the exact
current entity count of the named status; the named status always has a
positive count and no mapping entry, so a removed status with zero
entities and no mapping never triggers the failure. -/
theorem claim_C2 {store : ProjectStore} {tid : Nat} {wf : List String}
    {ms : List StatusMigration} {pt : ProjectType} {s : String}
    (h1 : find_project_type store.project_types tid = some pt)
    (h2 : s ∈ pt.workflow) (h3 : s ∉ wf)
    (h4 : dict_get (build_status_map ms) s = none)
    (h5 : 0 < count_projects_by_type_and_status store.projects tid s) :
    ∃ t c, (update_project_type_workflow store tid wf ms).1
        = .error (.unmappedStatusInUse t c)
      ∧ t ∈ pt.workflow ∧ t ∉ wf
      ∧ dict_get (build_status_map ms) t = none
      ∧ c = count_projects_by_type_and_status store.projects tid t ∧ 0 < c := by
  have hsf : s ∈ pt.workflow.filter (fun x => decide (x ∉ wf)) :=
    List.mem_filter.mpr ⟨h2, by simpa using h3⟩
  obtain ⟨t, c, hfind, htmem, htm, htc, htpos⟩ :=
    find_unmapped_in_use_eq_some store.projects tid (build_status_map ms) hsf h4 h5
  have htf := List.mem_filter.mp htmem
  refine ⟨t, c, ?_, htf.1, by simpa using htf.2, htm, htc, htpos⟩
  simp only [update_project_type_workflow, h1, hfind]

/-- Witness for C2: the spec's concrete scenario — two projects in
"Doing", mapping omitted, the update fails with
`UnmappedStatusInUse "Doing" 2`. -/
theorem claim_C2_witness :
    ∃ t c, (update_project_type_workflow demo_store2 1
        ["Backlog", "InProgress", "Done"] []).1 = .error (.unmappedStatusInUse t c)
      ∧ t ∈ demo_pt.workflow ∧ t ∉ (["Backlog", "InProgress", "Done"] : List String)
      ∧ dict_get (build_status_map []) t = none
      ∧ c = count_projects_by_type_and_status demo_store2.projects 1 t ∧ 0 < c :=
  claim_C2 (s := "Doing") rfl (by decide) (by decide) rfl (by decide)

/-- Claim C4, as stated, is false: the code checks unmapped removed
statuses against entity counts *before* it validates mapping targets.
With old workflow `["A","B"]`, new workflow `["A"]`, one project in the
removed unmapped status "B", and the mapping `("X","Z")` whose target
"Z" is not in the new workflow, the operation fails with
`UnmappedStatusInUse "B" 1`, not `TargetStatusNotInWorkflow "Z"`. -/
theorem claim_C4_counterexample :
    (("Z" : String) ∉ (["A"] : List String)
        ∧ "B" ∈ (["A", "B"] : List String) ∧ ("B" : String) ∉ (["A"] : List String)
        ∧ dict_get (build_status_map [⟨"X", "Z"⟩]) "B" = none
        ∧ count_projects_by_type_and_status [⟨1, none, 1, "P", none, "B", []⟩] 1 "B" = 1)
      ∧ (update_project_type_workflow
          ⟨[⟨1, "T", "t", none, ["A", "B"], none⟩], [⟨1, none, 1, "P", none, "B", []⟩]⟩
          1 ["A"] [⟨"X", "Z"⟩]).1
        = .error (.unmappedStatusInUse "B" 1) :=
  ⟨⟨by decide, by decide, by decide, rfl, rfl⟩, rfl⟩

/-- Claim C4 (amended): the entity-count check for unmapped removed
statuses is performed before the mapping-target check; on every input in
which some mapping target is absent from newWorkflow and simultaneously
some unmapped removed status has entities, the operation fails with
`UnmappedStatusInUse`, not `TargetStatusNotInWorkflow`. -/
theorem claim_C4 {store : ProjectStore} {tid : Nat} {wf : List String}
    {ms : List StatusMigration} {pt : ProjectType} (kv : String × String) (s : String)
    (h1 : find_project_type store.project_types tid = some pt)
    (_h2 : kv ∈ build_status_map ms) (_h3 : kv.2 ∉ wf)
    (h4 : s ∈ pt.workflow) (h5 : s ∉ wf)
    (h6 : dict_get (build_status_map ms) s = none)
    (h7 : 0 < count_projects_by_type_and_status store.projects tid s) :
    ∃ t c, (update_project_type_workflow store tid wf ms).1
        = .error (.unmappedStatusInUse t c) := by
  have hsf : s ∈ pt.workflow.filter (fun x => decide (x ∉ wf)) :=
    List.mem_filter.mpr ⟨h4, by simpa using h5⟩
  obtain ⟨t, c, hfind, _, _, _, _⟩ :=
    find_unmapped_in_use_eq_some store.projects tid (build_status_map ms) hsf h6 h7
  refine ⟨t, c, ?_⟩
  simp only [update_project_type_workflow, h1, hfind]

/-- Witness for C4 (amended), at the counterexample input. -/
theorem claim_C4_witness :
    ∃ t c, (update_project_type_workflow
        ⟨[⟨1, "T", "t", none, ["A", "B"], none⟩], [⟨1, none, 1, "P", none, "B", []⟩]⟩
        1 ["A"] [⟨"X", "Z"⟩]).1
      = .error (.unmappedStatusInUse t c) :=
  claim_C4 ("X", "Z") "B" rfl (by decide) (by decide) (by decide)
    (by decide) rfl (by decide)

/-- Claim C3: a type-to-type migration with distinct existing source and
destination types and every mapping target inside the destination
workflow reassigns every source-type project to the destination type:
the source count drops to zero, the destination count grows by exactly
the source's prior count, each migrated project's status is the mapped
status when a mapping entry exists and otherwise the destination
workflow's first status ("Backlog" when that workflow is empty), and the
reported migrated count is the number of source-type projects. -/
theorem claim_C3 {store : ProjectStore} {tid1 tid2 : Nat} {ms : List StatusMigration}
    (st tt : ProjectType)
    (h1 : find_project_type store.project_types tid1 = some st)
    (h2 : find_project_type store.project_types tid2 = some tt)
    (h3 : tid2 ≠ tid1)
    (h4 : ∀ kv ∈ build_status_map ms, kv.2 ∈ tt.workflow) :
    (migrate_projects_to_type store tid1 tid2 ms).1
        = .ok (count_projects_by_type store.projects tid1)
      ∧ count_projects_by_type
          (migrate_projects_to_type store tid1 tid2 ms).2.projects tid1 = 0
      ∧ count_projects_by_type
          (migrate_projects_to_type store tid1 tid2 ms).2.projects tid2
        = count_projects_by_type store.projects tid2
          + count_projects_by_type store.projects tid1
      ∧ ∀ p ∈ store.projects, p.project_type_id = tid1 →
          { p with project_type_id := tid2,
                   status := (dict_get (build_status_map ms) p.status).getD
                     (tt.workflow.headD "Backlog") }
            ∈ (migrate_projects_to_type store tid1 tid2 ms).2.projects := by
  have htt : tt.id = tid2 := by
    have := List.find?_some h2
    simpa using this
  have hne : ¬ tt.id = tid1 := by rw [htt]; exact h3
  have hshape : migrate_projects_to_type store tid1 tid2 ms
      = (.ok (count_projects_by_type store.projects tid1),
        { store with projects := store.projects.map (fun p =>
            if p.project_type_id = tid1 then
              { p with
                project_type_id := tt.id,
                status := (dict_get (build_status_map ms) p.status).getD
                  (tt.workflow.headD "Backlog") }
            else p) }) := by
    simp only [migrate_projects_to_type, h1, h2, if_neg hne, map_values_find?_eq_none h4]
  refine ⟨by rw [hshape], ?_, ?_, ?_⟩
  · rw [hshape]
    simp only [count_projects_by_type, List.countP_map]
    apply List.countP_eq_zero.mpr
    intro p _
    by_cases hp : p.project_type_id = tid1
    · simp [Function.comp, hp, hne]
    · simp [Function.comp, hp]
  · rw [hshape]
    simp only [count_projects_by_type, List.countP_map]
    have hcongr : store.projects.countP ((fun p => decide (p.project_type_id = tid2)) ∘
        (fun p => if p.project_type_id = tid1 then
          { p with
            project_type_id := tt.id,
            status := (dict_get (build_status_map ms) p.status).getD
              (tt.workflow.headD "Backlog") }
          else p))
        = store.projects.countP (fun p =>
            decide (p.project_type_id = tid1) || decide (p.project_type_id = tid2)) := by
      apply List.countP_congr
      intro p _
      by_cases hp : p.project_type_id = tid1
      · simp [Function.comp, hp, htt]
      · simp [Function.comp, hp]
    rw [hcongr, countP_or_disjoint]
    · omega
    · intro p _ hcontr
      rcases hcontr with ⟨ha, hb⟩
      simp only [decide_eq_true_eq] at ha hb
      exact h3 (hb ▸ ha ▸ rfl)
  · intro p hp hptid
    rw [hshape]
    refine List.mem_map.mpr ⟨p, hp, ?_⟩
    simp [hptid, htt]

/-- Stores for the spec's migration scenario: five projects of type 1
(workflow `["Open","Closed"]`), three in "Open", two in "Closed";
destination type 2 has workflow `["New","Active","Done"]`. -/
def demo_migration_store : ProjectStore :=
  ⟨[⟨1, "A", "a", none, ["Open", "Closed"], none⟩,
    ⟨2, "B", "b", none, ["New", "Active", "Done"], none⟩],
    [⟨1, none, 1, "P1", none, "Open", []⟩, ⟨2, none, 1, "P2", none, "Open", []⟩,
      ⟨3, none, 1, "P3", none, "Open", []⟩, ⟨4, none, 1, "P4", none, "Closed", []⟩,
      ⟨5, none, 1, "P5", none, "Closed", []⟩]⟩

/-- Witness for C3: the spec's concrete migration scenario with mapping
`Open -> Active`. -/
theorem claim_C3_witness :
    (migrate_projects_to_type demo_migration_store 1 2 [⟨"Open", "Active"⟩]).1
        = .ok (count_projects_by_type demo_migration_store.projects 1)
      ∧ count_projects_by_type
          (migrate_projects_to_type demo_migration_store 1 2 [⟨"Open", "Active"⟩]).2.projects 1
        = 0
      ∧ count_projects_by_type
          (migrate_projects_to_type demo_migration_store 1 2 [⟨"Open", "Active"⟩]).2.projects 2
        = count_projects_by_type demo_migration_store.projects 2
          + count_projects_by_type demo_migration_store.projects 1
      ∧ ∀ p ∈ demo_migration_store.projects, p.project_type_id = 1 →
          { p with project_type_id := 2,
                   status := (dict_get (build_status_map [⟨"Open", "Active"⟩]) p.status).getD
                     ((["New", "Active", "Done"] : List String).headD "Backlog") }
            ∈ (migrate_projects_to_type demo_migration_store 1 2
                [⟨"Open", "Active"⟩]).2.projects :=
  claim_C3 ⟨1, "A", "a", none, ["Open", "Closed"], none⟩
    ⟨2, "B", "b", none, ["New", "Active", "Done"], none⟩
    rfl rfl (by decide) (by decide)

/-- Store for the C5 scenario: one project in status "A", workflow
`["A","B"]`. -/
def demo_c5_store : ProjectStore :=
  ⟨[⟨1, "T", "t", none, ["A", "B"], none⟩], [⟨1, none, 1, "P", none, "A", []⟩]⟩

/-- Claim C5, as stated, is false: the code applies *every* declared
mapping as a bulk update, including entries keyed on statuses still
present in newWorkflow.  With workflow `["A","B"]` kept unchanged and
the single mapping `("A","B")` (old_status "A" is not removed), the
update succeeds and moves the project in "A" to "B"; with the entry
omitted the project stays in "A". -/
theorem claim_C5_counterexample :
    ("A" ∈ (["A", "B"] : List String))
      ∧ (update_project_type_workflow demo_c5_store 1 ["A", "B"] [⟨"A", "B"⟩]).1 = .ok ()
      ∧ (update_project_type_workflow demo_c5_store 1 ["A", "B"] [⟨"A", "B"⟩]).2.projects
          = [⟨1, none, 1, "P", none, "B", []⟩]
      ∧ (update_project_type_workflow demo_c5_store 1 ["A", "B"] []).2.projects
          = [⟨1, none, 1, "P", none, "A", []⟩] :=
  ⟨by decide, rfl, rfl, rfl⟩

/-- Claim C5 (amended): in a successful workflow update every declared
statusMappings entry is applied as a bulk update, including entries
whose old_status is still present in newWorkflow: every entity of the
type has its status rewritten by chaining all declared mappings in
declaration order, so a mapping keyed on a non-removed status does
affect entities in that status whenever its new_status differs. -/
theorem claim_C5 {store : ProjectStore} {tid : Nat} {wf : List String}
    {ms : List StatusMigration}
    (hok : (update_project_type_workflow store tid wf ms).1 = .ok ()) :
    (update_project_type_workflow store tid wf ms).2.projects
      = store.projects.map (fun p => if p.project_type_id = tid
          then { p with status := chain_apply (build_status_map ms) p.status } else p) := by
  cases hf : find_project_type store.project_types tid with
  | none => rw [update_workflow_err_notfound hf] at hok; cases hok
  | some pt =>
    cases hu : find_unmapped_in_use store.projects tid (build_status_map ms)
        (pt.workflow.filter (fun s => decide (s ∉ wf))) with
    | some sc => rw [update_workflow_err_unmapped hf hu] at hok; cases hok
    | none =>
      cases ht : ((build_status_map ms).map (fun kv => kv.2)).find?
          (fun ns => decide (ns ∉ wf)) with
      | some ns => rw [update_workflow_err_target hf hu ht] at hok; cases hok
      | none =>
        rw [update_workflow_ok hf hu ht]
        exact foldl_bulk_update_eq_map _ _ _

/-- Witness for C5 (amended), at the counterexample input: the declared
mapping `("A","B")` on the non-removed status "A" is applied to the
project sitting in "A". -/
theorem claim_C5_witness :
    (update_project_type_workflow demo_c5_store 1 ["A", "B"] [⟨"A", "B"⟩]).2.projects
      = demo_c5_store.projects.map (fun p => if p.project_type_id = 1
          then { p with status := chain_apply (build_status_map [⟨"A", "B"⟩]) p.status }
          else p) :=
  claim_C5 rfl

/-- Claim C6, as stated, is false: the workflow-update endpoint performs
no `InvalidWorkflow` validation at all.  On a type with workflow `["A"]`
and no entities, the proposed empty workflow is accepted and stored. -/
theorem claim_C6_counterexample :
    (update_project_type_workflow ⟨[⟨1, "T", "t", none, ["A"], none⟩], []⟩ 1 [] []).1
        = .ok ()
      ∧ find_project_type
          (update_project_type_workflow
            ⟨[⟨1, "T", "t", none, ["A"], none⟩], []⟩ 1 [] []).2.project_types 1
        = some ⟨1, "T", "t", none, [], none⟩ :=
  ⟨rfl, rfl⟩

/-- Claim C6 (amended): the workflow-update operation performs no
InvalidWorkflow validation: on an existing type with no entities, every
proposed newWorkflow — the empty list and lists containing duplicate
names included — is accepted (with an empty statusMappings list) and
stored exactly as proposed. -/
theorem claim_C6 {store : ProjectStore} {tid : Nat} {wf : List String} {pt : ProjectType}
    (h1 : find_project_type store.project_types tid = some pt)
    (h2 : count_projects_by_type store.projects tid = 0) :
    (update_project_type_workflow store tid wf []).1 = .ok ()
      ∧ find_project_type
          (update_project_type_workflow store tid wf []).2.project_types tid
        = some { pt with workflow := wf } := by
  have hnone : find_unmapped_in_use store.projects tid (build_status_map [])
      (pt.workflow.filter (fun s => decide (s ∉ wf))) = none :=
    find_unmapped_in_use_eq_none (fun s _ _ =>
      Nat.le_zero.mp (h2 ▸ count_status_le_count_type store.projects tid s))
  have hshape := update_workflow_ok h1 hnone rfl
  rw [hshape]
  refine ⟨rfl, ?_⟩
  rw [find_project_type_map_set_workflow, h1]
  rfl

/-- Witness for C6 (amended): a duplicate-laden workflow `["A","A"]` is
accepted and stored on an entity-free type. -/
theorem claim_C6_witness :
    (update_project_type_workflow ⟨[⟨1, "T", "t", none, ["A"], none⟩], []⟩ 1
        ["A", "A"] []).1 = .ok ()
      ∧ find_project_type
          (update_project_type_workflow
            ⟨[⟨1, "T", "t", none, ["A"], none⟩], []⟩ 1 ["A", "A"] []).2.project_types 1
        = some { (⟨1, "T", "t", none, ["A"], none⟩ : ProjectType) with
            workflow := ["A", "A"] } :=
  claim_C6 rfl rfl

/-! ### Shapes of the migration endpoints -/

/-- Shape of a successful project migration. -/
theorem migrate_projects_ok_shape {store : ProjectStore} {tid1 tid2 : Nat}
    {ms : List StatusMigration} {st tt : ProjectType}
    (h1 : find_project_type store.project_types tid1 = some st)
    (h2 : find_project_type store.project_types tid2 = some tt)
    (hne : ¬ tt.id = tid1)
    (h3 : ((build_status_map ms).map (fun kv => kv.2)).find?
        (fun ns => decide (ns ∉ tt.workflow)) = none) :
    migrate_projects_to_type store tid1 tid2 ms
      = (.ok (count_projects_by_type store.projects tid1),
        { store with projects := store.projects.map (fun p =>
            if p.project_type_id = tid1 then
              { p with
                project_type_id := tt.id,
                status := (dict_get (build_status_map ms) p.status).getD
                  (tt.workflow.headD "Backlog") }
            else p) }) := by
  simp only [migrate_projects_to_type, h1, h2, if_neg hne, h3]

/-- Shape of a successful task migration: migrated tasks also receive
the target type's `team_id`. -/
theorem migrate_tasks_ok_shape {store : TaskStore} {tid1 tid2 : Nat}
    {ms : List StatusMigration} {st tt : TaskType}
    (h1 : find_task_type store.task_types tid1 = some st)
    (h2 : find_task_type store.task_types tid2 = some tt)
    (hne : ¬ tt.id = tid1)
    (h3 : ((build_status_map ms).map (fun kv => kv.2)).find?
        (fun ns => decide (ns ∉ tt.workflow)) = none) :
    migrate_tasks_to_type store tid1 tid2 ms
      = (.ok (count_tasks_by_type store.tasks tid1),
        { store with tasks := store.tasks.map (fun t =>
            if t.task_type_id = tid1 then
              { t with
                task_type_id := tt.id,
                team_id := tt.team_id,
                status := (dict_get (build_status_map ms) t.status).getD
                  (tt.workflow.headD "Backlog") }
            else t) }) := by
  simp only [migrate_tasks_to_type, h1, h2, if_neg hne, h3]

/-- Claim C7, as stated, is false for tasks: the task migration loop
also executes `task.team_id = target_type.team_id`.  Migrating the
single task (team 1, type 1) to type 2 (owned by team 2) succeeds and
changes the task's `team_id` from 1 to 2. -/
theorem claim_C7_counterexample :
    ((⟨[⟨1, 1, "T", "t", none, ["A"], none⟩, ⟨2, 2, "U", "u", none, ["X"], none⟩],
        [⟨1, "D-1", none, 1, 1, none, "Task", none, "A", none, []⟩]⟩ :
          TaskStore).tasks.map (fun t => t.team_id) = [1])
      ∧ (migrate_tasks_to_type
          ⟨[⟨1, 1, "T", "t", none, ["A"], none⟩, ⟨2, 2, "U", "u", none, ["X"], none⟩],
            [⟨1, "D-1", none, 1, 1, none, "Task", none, "A", none, []⟩]⟩ 1 2 []).1
        = .ok 1
      ∧ (migrate_tasks_to_type
          ⟨[⟨1, 1, "T", "t", none, ["A"], none⟩, ⟨2, 2, "U", "u", none, ["X"], none⟩],
            [⟨1, "D-1", none, 1, 1, none, "Task", none, "A", none, []⟩]⟩ 1 2 []).2.tasks.map
          (fun t => t.team_id) = [2] :=
  ⟨rfl, rfl, rfl⟩

/-- Claim C7 (amended): a successful type-to-type migration modifies
only `project_type_id` and `status` of projects, and only
`task_type_id`, `status` and `team_id` of tasks — `team_id` being set to
the destination type's `team_id`; every other stored field of every
entity is unchanged, and entities not of the source type are untouched
entirely. -/
theorem claim_C7 :
    (∀ (store : ProjectStore) (tid1 tid2 : Nat) (ms : List StatusMigration) (c : Nat)
        (p : Project), p ∈ store.projects →
      (migrate_projects_to_type store tid1 tid2 ms).1 = .ok c →
      ∃ p', p' ∈ (migrate_projects_to_type store tid1 tid2 ms).2.projects
        ∧ p'.id = p.id ∧ p'.theme_id = p.theme_id ∧ p'.title = p.title
        ∧ p'.description = p.description ∧ p'.custom_data = p.custom_data
        ∧ (p.project_type_id ≠ tid1 → p' = p))
    ∧ (∀ (store : TaskStore) (tid1 tid2 : Nat) (ms : List StatusMigration) (c : Nat)
        (tt : TaskType) (t : Task),
      find_task_type store.task_types tid2 = some tt → t ∈ store.tasks →
      (migrate_tasks_to_type store tid1 tid2 ms).1 = .ok c →
      ∃ t', t' ∈ (migrate_tasks_to_type store tid1 tid2 ms).2.tasks
        ∧ t'.id = t.id ∧ t'.display_id = t.display_id ∧ t'.project_id = t.project_id
        ∧ t'.release_id = t.release_id ∧ t'.title = t.title
        ∧ t'.description = t.description ∧ t'.estimation = t.estimation
        ∧ t'.custom_data = t.custom_data
        ∧ (t.task_type_id = tid1 → t'.task_type_id = tt.id ∧ t'.team_id = tt.team_id)
        ∧ (t.task_type_id ≠ tid1 → t' = t)) := by
  constructor
  · intro store tid1 tid2 ms c p hp hok
    cases h1 : find_project_type store.project_types tid1 with
    | none => simp only [migrate_projects_to_type, h1] at hok; cases hok
    | some st =>
      cases h2 : find_project_type store.project_types tid2 with
      | none => simp only [migrate_projects_to_type, h1, h2] at hok; cases hok
      | some tt =>
        by_cases hne : tt.id = tid1
        · simp only [migrate_projects_to_type, h1, h2, if_pos hne] at hok; cases hok
        · cases h3 : ((build_status_map ms).map (fun kv => kv.2)).find?
              (fun ns => decide (ns ∉ tt.workflow)) with
          | some ns =>
            simp only [migrate_projects_to_type, h1, h2, if_neg hne, h3] at hok
            cases hok
          | none =>
            rw [migrate_projects_ok_shape h1 h2 hne h3]
            by_cases hpt : p.project_type_id = tid1
            · refine ⟨{ p with
                  project_type_id := tt.id,
                  status := (dict_get (build_status_map ms) p.status).getD
                    (tt.workflow.headD "Backlog") }, ?_, rfl, rfl, rfl, rfl, rfl,
                fun hc => absurd hpt hc⟩
              refine List.mem_map.mpr ⟨p, hp, ?_⟩
              simp [hpt]
            · refine ⟨p, ?_, rfl, rfl, rfl, rfl, rfl, fun _ => rfl⟩
              refine List.mem_map.mpr ⟨p, hp, ?_⟩
              simp [hpt]
  · intro store tid1 tid2 ms c tt t htt ht hok
    cases h1 : find_task_type store.task_types tid1 with
    | none => simp only [migrate_tasks_to_type, h1] at hok; cases hok
    | some st =>
      by_cases hne : tt.id = tid1
      · simp only [migrate_tasks_to_type, h1, htt, if_pos hne] at hok; cases hok
      · cases h3 : ((build_status_map ms).map (fun kv => kv.2)).find?
            (fun ns => decide (ns ∉ tt.workflow)) with
        | some ns =>
          simp only [migrate_tasks_to_type, h1, htt, if_neg hne, h3] at hok
          cases hok
        | none =>
          rw [migrate_tasks_ok_shape h1 htt hne h3]
          by_cases hpt : t.task_type_id = tid1
          · refine ⟨{ t with
                task_type_id := tt.id,
                team_id := tt.team_id,
                status := (dict_get (build_status_map ms) t.status).getD
                  (tt.workflow.headD "Backlog") }, ?_, rfl, rfl, rfl, rfl, rfl, rfl,
              rfl, rfl, fun _ => ⟨rfl, rfl⟩, fun hc => absurd hpt hc⟩
            refine List.mem_map.mpr ⟨t, ht, ?_⟩
            simp [hpt]
          · refine ⟨t, ?_, rfl, rfl, rfl, rfl, rfl, rfl, rfl, rfl,
              fun hc => absurd hc hpt, fun _ => rfl⟩
            refine List.mem_map.mpr ⟨t, ht, ?_⟩
            simp [hpt]

/-- Witness for C7 (amended), at the counterexample input: the migrated
task keeps every field except `task_type_id`, `team_id` and `status`. -/
theorem claim_C7_witness :
    ∃ t', t' ∈ (migrate_tasks_to_type
        ⟨[⟨1, 1, "T", "t", none, ["A"], none⟩, ⟨2, 2, "U", "u", none, ["X"], none⟩],
          [⟨1, "D-1", none, 1, 1, none, "Task", none, "A", none, []⟩]⟩ 1 2 []).2.tasks
      ∧ t'.id = 1 ∧ t'.display_id = "D-1" ∧ t'.project_id = none
      ∧ t'.release_id = none ∧ t'.title = "Task"
      ∧ t'.description = none ∧ t'.estimation = none
      ∧ t'.custom_data = []
      ∧ ((1 : Nat) = 1 → t'.task_type_id = 2 ∧ t'.team_id = 2)
      ∧ ((1 : Nat) ≠ 1 →
          t' = ⟨1, "D-1", none, 1, 1, none, "Task", none, "A", none, []⟩) :=
  claim_C7.2
    ⟨[⟨1, 1, "T", "t", none, ["A"], none⟩, ⟨2, 2, "U", "u", none, ["X"], none⟩],
      [⟨1, "D-1", none, 1, 1, none, "Task", none, "A", none, []⟩]⟩
    1 2 [] 1 ⟨2, 2, "U", "u", none, ["X"], none⟩
    ⟨1, "D-1", none, 1, 1, none, "Task", none, "A", none, []⟩
    rfl (List.mem_singleton.mpr rfl) rfl

/-- Claim C8: whenever the workflow-update or the type-migration
operation returns an error (type not found, target type not found,
SameType, TargetStatusNotInWorkflow, or UnmappedStatusInUse), the store
is returned unchanged: no entity's status or type and no type's workflow
is modified.  (`InvalidWorkflow` never occurs, so the claim holds for it
vacuously.) -/
theorem claim_C8 (store : ProjectStore) (tid tgt : Nat) (wf : List String)
    (ms ms2 : List StatusMigration) (e e2 : ApiError) :
    ((update_project_type_workflow store tid wf ms).1 = .error e →
      (update_project_type_workflow store tid wf ms).2 = store)
    ∧ ((migrate_projects_to_type store tid tgt ms2).1 = .error e2 →
      (migrate_projects_to_type store tid tgt ms2).2 = store) := by
  constructor
  · intro h
    cases hf : find_project_type store.project_types tid with
    | none => rw [update_workflow_err_notfound hf]
    | some pt =>
      cases hu : find_unmapped_in_use store.projects tid (build_status_map ms)
          (pt.workflow.filter (fun s => decide (s ∉ wf))) with
      | some sc => rw [update_workflow_err_unmapped hf hu]
      | none =>
        cases ht : ((build_status_map ms).map (fun kv => kv.2)).find?
            (fun ns => decide (ns ∉ wf)) with
        | some ns => rw [update_workflow_err_target hf hu ht]
        | none => rw [update_workflow_ok hf hu ht] at h; cases h
  · intro h
    cases h1 : find_project_type store.project_types tid with
    | none => simp only [migrate_projects_to_type, h1]
    | some st =>
      cases h2 : find_project_type store.project_types tgt with
      | none => simp only [migrate_projects_to_type, h1, h2]
      | some tt =>
        by_cases hne : tt.id = tid
        · simp only [migrate_projects_to_type, h1, h2, if_pos hne]
        · cases h3 : ((build_status_map ms2).map (fun kv => kv.2)).find?
              (fun ns => decide (ns ∉ tt.workflow)) with
          | some ns => simp only [migrate_projects_to_type, h1, h2, if_neg hne, h3]
          | none => rw [migrate_projects_ok_shape h1 h2 hne h3] at h; cases h

/-- Witness for C8: on the empty store both operations fail with
`typeNotFound` and return the store unchanged. -/
theorem claim_C8_witness :
    (update_project_type_workflow ⟨[], []⟩ 1 ["A"] []).2 = (⟨[], []⟩ : ProjectStore)
      ∧ (migrate_projects_to_type ⟨[], []⟩ 1 2 []).2 = (⟨[], []⟩ : ProjectStore) :=
  ⟨(claim_C8 ⟨[], []⟩ 1 2 ["A"] [] [] .typeNotFound .typeNotFound).1 rfl,
    (claim_C8 ⟨[], []⟩ 1 2 ["A"] [] [] .typeNotFound .typeNotFound).2 rfl⟩

/-- Claim C9: deletion of an existing type succeeds exactly when the
live entity count of the type is zero; when the count is positive the
operation is denied with an error carrying that exact count and the
store is unchanged. -/
theorem claim_C9 (store : ProjectStore) (tid : Nat) (pt : ProjectType)
    (h1 : find_project_type store.project_types tid = some pt) :
    ((delete_project_type store tid).1 = .ok ()
        ↔ count_projects_by_type store.projects tid = 0)
      ∧ (0 < count_projects_by_type store.projects tid →
          delete_project_type store tid
            = (.error (.cannotDeleteWithEntities
                (count_projects_by_type store.projects tid)), store)) := by
  have herr : 0 < count_projects_by_type store.projects tid →
      delete_project_type store tid
        = (.error (.cannotDeleteWithEntities
            (count_projects_by_type store.projects tid)), store) := by
    intro hpos
    simp only [delete_project_type, h1, if_pos hpos]
  refine ⟨⟨?_, ?_⟩, herr⟩
  · intro h
    by_contra hz
    rw [herr (Nat.pos_of_ne_zero hz)] at h
    cases h
  · intro hz
    have hneg : ¬ count_projects_by_type store.projects tid > 0 := by omega
    simp only [delete_project_type, h1, if_neg hneg]

/-- Witness for C9: a type with one project is denied deletion with
count 1; the same type with no projects is deletable. -/
theorem claim_C9_witness :
    ((delete_project_type ⟨[⟨1, "T", "t", none, ["A"], none⟩], []⟩ 1).1 = .ok ()
        ↔ count_projects_by_type ([] : List Project) 1 = 0)
      ∧ delete_project_type
          ⟨[⟨1, "T", "t", none, ["A"], none⟩], [⟨1, none, 1, "P", none, "A", []⟩]⟩ 1
        = (.error (.cannotDeleteWithEntities 1),
          ⟨[⟨1, "T", "t", none, ["A"], none⟩], [⟨1, none, 1, "P", none, "A", []⟩]⟩) :=
  ⟨(claim_C9 ⟨[⟨1, "T", "t", none, ["A"], none⟩], []⟩ 1
      ⟨1, "T", "t", none, ["A"], none⟩ rfl).1,
    (claim_C9
      ⟨[⟨1, "T", "t", none, ["A"], none⟩], [⟨1, none, 1, "P", none, "A", []⟩]⟩
      1 ⟨1, "T", "t", none, ["A"], none⟩ rfl).2 (by decide)⟩

/-! ### Stats lemmas for C10 -/

/-- Inserting a fresh key into the breakdown dict appends it. -/
theorem dict_insert_nat_fresh {d : List (String × Nat)} {k : String} {v : Nat}
    (h : d.any (fun kv => kv.1 == k) = false) :
    dict_insert_nat d k v = d ++ [(k, v)] := by
  simp only [dict_insert_nat, h]
  rfl

/-- Characterization of the stats fold on a duplicate-free workflow
whose statuses are all fresh for the accumulator: it appends one entry
per workflow status with a positive count, carrying that exact count. -/
theorem projects_by_status_fold_eq (ps : List Project) (tid : Nat) :
    ∀ {wf : List String} {d : List (String × Nat)}, wf.Nodup →
      (∀ s ∈ wf, d.any (fun kv => kv.1 == s) = false) →
      wf.foldl (fun d s =>
          if count_projects_by_type_and_status ps tid s > 0 then
            dict_insert_nat d s (count_projects_by_type_and_status ps tid s)
          else d) d
        = d ++ (wf.filter
            (fun s => decide (count_projects_by_type_and_status ps tid s > 0))).map
            (fun s => (s, count_projects_by_type_and_status ps tid s)) := by
  intro wf
  induction wf with
  | nil => intro d _ _; simp
  | cons s rest ih =>
    intro d hnd hfresh
    have hs : s ∉ rest := (List.nodup_cons.mp hnd).1
    have hrest : rest.Nodup := (List.nodup_cons.mp hnd).2
    by_cases hc : count_projects_by_type_and_status ps tid s > 0
    · have hins := dict_insert_nat_fresh (k := s)
        (v := count_projects_by_type_and_status ps tid s)
        (hfresh s (List.mem_cons_self s rest))
      have hfresh2 : ∀ x ∈ rest,
          (d ++ [(s, count_projects_by_type_and_status ps tid s)]).any
            (fun kv => kv.1 == x) = false := by
        intro x hx
        rw [List.any_append]
        have h1 := hfresh x (List.mem_cons_of_mem s hx)
        have h2 : (s == x) = false := by
          refine beq_eq_false_iff_ne.mpr ?_
          intro hsx
          exact hs (hsx ▸ hx)
        simp [h1, h2]
      simp only [List.foldl_cons, if_pos hc, hins]
      rw [ih hrest hfresh2]
      simp [hc, List.append_assoc]
    · have hfresh2 : ∀ x ∈ rest, d.any (fun kv => kv.1 == x) = false :=
        fun x hx => hfresh x (List.mem_cons_of_mem s hx)
      simp only [List.foldl_cons, if_neg hc]
      rw [ih hrest hfresh2]
      simp [hc]

/-- Dropping zero-count statuses does not change the summed counts. -/
theorem sum_filter_pos_counts (f : String → Nat) :
    ∀ (wf : List String),
      ((wf.filter (fun s => decide (f s > 0))).map f).sum = (wf.map f).sum := by
  intro wf
  induction wf with
  | nil => rfl
  | cons s rest ih =>
    by_cases hc : f s > 0
    · simp [List.filter_cons, hc, ih]
    · have hz : f s = 0 := by omega
      simp [List.filter_cons, hc, ih, hz]

/-- On a duplicate-free status list, summing the per-status counts
counts exactly the projects of the type whose status lies in the
list. -/
theorem sum_counts_eq_countP (ps : List Project) (tid : Nat) :
    ∀ {wf : List String}, wf.Nodup →
      (wf.map (fun s => count_projects_by_type_and_status ps tid s)).sum
        = ps.countP (fun p => decide (p.project_type_id = tid ∧ p.status ∈ wf)) := by
  intro wf
  induction wf with
  | nil =>
    intro _
    symm
    apply List.countP_eq_zero.mpr
    intro p _
    simp
  | cons s rest ih =>
    intro hnd
    have hs : s ∉ rest := (List.nodup_cons.mp hnd).1
    have hrest : rest.Nodup := (List.nodup_cons.mp hnd).2
    have hsplit : ps.countP (fun p => decide (p.project_type_id = tid ∧ p.status ∈ s :: rest))
        = ps.countP (fun p => decide (p.project_type_id = tid ∧ p.status = s))
          + ps.countP (fun p => decide (p.project_type_id = tid ∧ p.status ∈ rest)) := by
      rw [← countP_or_disjoint]
      · apply List.countP_congr
        intro p _
        simp only [decide_eq_true_eq, Bool.or_eq_true, List.mem_cons]
        tauto
      · intro p _ hcontr
        rcases hcontr with ⟨ha, hb⟩
        simp only [decide_eq_true_eq] at ha hb
        exact hs (ha.2 ▸ hb.2)
    rw [List.map_cons, List.sum_cons, hsplit, ih hrest]
    rfl

/-- Claim C10: the per-type stats report groups counts only over
statuses of the type's current workflow (each breakdown entry names a
workflow status and carries its exact count), its total counts exactly
the projects of the type whose status is a member of the workflow —
hence it never exceeds, and can be strictly less than, the count the
deletion gate uses. -/
theorem claim_C10 (store : ProjectStore) (tid : Nat) (pt : ProjectType)
    (h1 : find_project_type store.project_types tid = some pt)
    (h2 : pt.workflow.Nodup) :
    get_project_type_stats store tid
        = .ok (projects_by_status store.projects tid pt.workflow,
            stats_total (projects_by_status store.projects tid pt.workflow))
      ∧ (∀ kv ∈ projects_by_status store.projects tid pt.workflow,
          kv.1 ∈ pt.workflow
            ∧ kv.2 = count_projects_by_type_and_status store.projects tid kv.1)
      ∧ stats_total (projects_by_status store.projects tid pt.workflow)
        = store.projects.countP
            (fun p => decide (p.project_type_id = tid ∧ p.status ∈ pt.workflow))
      ∧ stats_total (projects_by_status store.projects tid pt.workflow)
        ≤ count_projects_by_type store.projects tid
      ∧ ∃ (store' : ProjectStore) (tid' : Nat) (pt' : ProjectType),
          find_project_type store'.project_types tid' = some pt'
            ∧ stats_total (projects_by_status store'.projects tid' pt'.workflow)
              < count_projects_by_type store'.projects tid' := by
  have hchar : projects_by_status store.projects tid pt.workflow
      = (pt.workflow.filter
          (fun s => decide (count_projects_by_type_and_status store.projects tid s > 0))).map
          (fun s => (s, count_projects_by_type_and_status store.projects tid s)) := by
    have := projects_by_status_fold_eq store.projects tid
      (d := ([] : List (String × Nat))) h2 (fun s _ => rfl)
    simpa [projects_by_status] using this
  have htotal : stats_total (projects_by_status store.projects tid pt.workflow)
      = store.projects.countP
          (fun p => decide (p.project_type_id = tid ∧ p.status ∈ pt.workflow)) := by
    rw [hchar]
    unfold stats_total
    rw [List.map_map]
    have hmm : ((fun kv : String × Nat => kv.2) ∘
        (fun s => (s, count_projects_by_type_and_status store.projects tid s)))
        = fun s => count_projects_by_type_and_status store.projects tid s := rfl
    rw [hmm, sum_filter_pos_counts, sum_counts_eq_countP store.projects tid h2]
  refine ⟨?_, ?_, htotal, ?_, ?_⟩
  · simp only [get_project_type_stats, h1]
  · intro kv hkv
    rw [hchar] at hkv
    obtain ⟨s, hsmem, rfl⟩ := List.mem_map.mp hkv
    exact ⟨(List.mem_filter.mp hsmem).1, rfl⟩
  · rw [htotal]
    apply List.countP_mono_left
    intro p _ hp
    simp only [decide_eq_true_eq] at hp ⊢
    exact hp.1
  · refine ⟨⟨[⟨1, "T", "t", none, ["A"], none⟩], [⟨1, none, 1, "P", none, "Z", []⟩]⟩,
      1, ⟨1, "T", "t", none, ["A"], none⟩, rfl, ?_⟩
    decide

/-- Witness for C10: a type with workflow `["A"]`, one project in "A"
and one in the stale status "Z21"; the stats total is 1 while the
deletion gate counts 2. -/
theorem claim_C10_witness :
    get_project_type_stats
        ⟨[⟨1, "T", "t", none, ["A"], none⟩],
          [⟨1, none, 1, "P", none, "A", []⟩, ⟨2, none, 1, "Q", none, "Z21", []⟩]⟩ 1
        = .ok (projects_by_status
            [⟨1, none, 1, "P", none, "A", []⟩, ⟨2, none, 1, "Q", none, "Z21", []⟩] 1 ["A"],
          stats_total (projects_by_status
            [⟨1, none, 1, "P", none, "A", []⟩, ⟨2, none, 1, "Q", none, "Z21", []⟩] 1 ["A"]))
      ∧ (∀ kv ∈ projects_by_status
            [⟨1, none, 1, "P", none, "A", []⟩, ⟨2, none, 1, "Q", none, "Z21", []⟩] 1 ["A"],
          kv.1 ∈ (["A"] : List String)
            ∧ kv.2 = count_projects_by_type_and_status
                [⟨1, none, 1, "P", none, "A", []⟩, ⟨2, none, 1, "Q", none, "Z21", []⟩] 1 kv.1)
      ∧ stats_total (projects_by_status
            [⟨1, none, 1, "P", none, "A", []⟩, ⟨2, none, 1, "Q", none, "Z21", []⟩] 1 ["A"])
        = List.countP
            (fun p : Project => decide (p.project_type_id = 1 ∧ p.status ∈ (["A"] : List String)))
            [⟨1, none, 1, "P", none, "A", []⟩, ⟨2, none, 1, "Q", none, "Z21", []⟩]
      ∧ stats_total (projects_by_status
            [⟨1, none, 1, "P", none, "A", []⟩, ⟨2, none, 1, "Q", none, "Z21", []⟩] 1 ["A"])
        ≤ count_projects_by_type
            [⟨1, none, 1, "P", none, "A", []⟩, ⟨2, none, 1, "Q", none, "Z21", []⟩] 1
      ∧ ∃ (store' : ProjectStore) (tid' : Nat) (pt' : ProjectType),
          find_project_type store'.project_types tid' = some pt'
            ∧ stats_total (projects_by_status store'.projects tid' pt'.workflow)
              < count_projects_by_type store'.projects tid' :=
  claim_C10
    ⟨[⟨1, "T", "t", none, ["A"], none⟩],
      [⟨1, none, 1, "P", none, "A", []⟩, ⟨2, none, 1, "Q", none, "Z21", []⟩]⟩
    1 ⟨1, "T", "t", none, ["A"], none⟩ rfl (by decide)

end OrbitHub
